import Mathlib

/-!
Verification of the ironpath multi-agent orchestration layer.

The definitions below are a shallow embedding of the Python sources under
src/backend/src: base_agent.py (cache and retry wrapper), router_agent.py
(intent classification and routing predicates), programmer_agent.py
(methodology and exercise loading with caching and filtering),
analyst_agent.py (read-only coaching with graceful knowledge fallback),
feedback_agent.py (workout adjustment and check-in analysis with fallback),
and routes/router.py (the dispatcher).

Modelling conventions:
- Python exceptions are modelled with Option/Except: a raised exception is
  none / Except.error.
- The Gemini completion provider is external; its behaviour is a parameter
  (a function from the two prompts and the 1-based attempt number to an
  outcome).  Likewise the standard-library JSON parser json.loads is a
  parameter of type String to Option JValue.
- Python dict values of mixed type (parsed JSON, returned tuples) are
  modelled by the JValue type.
- Floats appearing in the data (confidence, RPE, one-rep maxes) are
  modelled as rationals.
- Prompt text is embedded in abridged form: the control structure of the
  prompt builders (which data is injected, under which conditions) follows
  the source, while long static instruction paragraphs are shortened,
  since no verified property depends on the literal prompt wording.
-/

namespace IronPath

/-! ## Request-scoped cache (base_agent.py, BaseAgent.cache_get / cache_set)

The cache is a per-agent-instance Python dict from string keys to values.
cache_set overwrites; cache_get returns the value or None.  We model the
dict as an association list where the most recent binding shadows older
ones. -/

abbrev Cache (α : Type) : Type := List (String × α)

def Cache.empty {α : Type} : Cache α := []

/-- BaseAgent.cache_get: return the cached value for the key, or None. -/
def cache_get {α : Type} (c : Cache α) (key : String) : Option α :=
  (List.find? (fun p => p.1 == key) c).map (fun p => p.2)

/-- BaseAgent.cache_set: bind the key to the value, overwriting any
previous binding. -/
def cache_set {α : Type} (c : Cache α) (key : String) (v : α) : Cache α :=
  (key, v) :: c

/-! ## Retry wrapper (base_agent.py, BaseAgent._call_gemini)

One call to the external provider either raises or returns response text;
empty text triggers ValueError("Empty response from Gemini") inside the
try block, so it behaves as a failed attempt.  The loop makes attempts
1 .. max_retries; a failure on the final attempt is re-raised; the code
after the loop raises a generic exception (reachable only when
max_retries is 0 or negative). -/

inductive GenOutcome where
  | raised (msg : String)
  | text (s : String)
deriving Repr, DecidableEq

/-- Outcome of one iteration of the try block in _call_gemini: a raised
provider error, or ValueError on falsy response text, or the text. -/
def attempt_result : GenOutcome → Except String String
  | GenOutcome.raised m => Except.error m
  | GenOutcome.text s =>
      if s.isEmpty then Except.error "Empty response from Gemini" else Except.ok s

def is_fail (g : GenOutcome) : Bool :=
  match attempt_result g with
  | Except.error _ => true
  | Except.ok _ => false

def fail_msg (g : GenOutcome) : String :=
  match attempt_result g with
  | Except.error m => m
  | Except.ok _ => ""

/-- The retry loop of _call_gemini, with the current 1-based attempt
number and the number of remaining iterations (current one included);
returns the final result and the number of attempts actually made.  A
failure with no iterations left models the re-raise on the final
attempt. -/
def run_attempts (provider : Nat → GenOutcome) : Nat → Nat → Except String String × Nat
  | _, 0 => (Except.error "Unexpected error in Gemini API call", 0)
  | attempt, fuel + 1 =>
    match attempt_result (provider attempt) with
    | Except.ok s => (Except.ok s, 1)
    | Except.error e =>
      if fuel = 0 then (Except.error e, 1)
      else
        let r := run_attempts provider (attempt + 1) fuel
        (r.1, r.2 + 1)

/-- BaseAgent._call_gemini: up to max_retries sequential attempts; the
second component counts the attempts made. -/
def call_gemini (max_retries : Nat) (provider : Nat → GenOutcome) :
    Except String String × Nat :=
  run_attempts provider 1 max_retries

/-! ## Intent classification and routing predicates (router_agent.py)

The pydantic model IntentClassification is imported from models/schemas
in the source; the predicates read the "intent" entry of its dict dump. -/

structure IntentClassification where
  intent : String
  confidence : ℚ
  reasoning : String
  suggestedAgent : String
  requiresProgramContext : Bool
deriving Repr, DecidableEq

/-- RouterAgent.should_route_to_programmer. -/
def should_route_to_programmer (c : IntentClassification) : Bool :=
  c.intent == "program_generation"

/-- RouterAgent.should_route_to_analyst. -/
def should_route_to_analyst (c : IntentClassification) : Bool :=
  ["technique_question", "motivation_support", "general_chat"].contains c.intent

/-- RouterAgent.should_route_to_feedback. -/
def should_route_to_feedback (c : IntentClassification) : Bool :=
  c.intent == "program_adjustment"

/-! ## JSON values

JValue models both the result of json.loads on the model response text
and, where needed, untyped Python values travelling through the code. -/

inductive JValue where
  | jnull
  | jbool (b : Bool)
  | jnum (q : ℚ)
  | jstr (s : String)
  | jarr (xs : List JValue)
  | jobj (fields : List (String × JValue))

/-- Key lookup on a parsed JSON object; none models both a KeyError on a
missing key and a TypeError when indexing a non-dict value. -/
def jGet : JValue → String → Option JValue
  | JValue.jobj fields, key => (List.find? (fun p => p.1 == key) fields).map (fun p => p.2)
  | _, _ => none

/-! ## Pydantic schemas (models/schemas.py)

ExerciseSchema, LiftingSessionSchema, ProgramMicrocycleSchema and
FullProgramSchema with their Field constraints; validation of a parsed
JSON value against the schema returns none when pydantic would raise
ValidationError (or when building the model from a non-dict would raise
TypeError). -/

structure ExerciseSchema where
  name : String
  sets : Int
  reps : String
  rpeTarget : ℚ
  restSeconds : Int
  notes : Option String
deriving Repr, DecidableEq

structure LiftingSessionSchema where
  dayNumber : Int
  focus : String
  exercises : List ExerciseSchema
deriving Repr, DecidableEq

structure ProgramMicrocycleSchema where
  weekNumber : Int
  sessions : List LiftingSessionSchema
deriving Repr, DecidableEq

structure FullProgramSchema where
  id : String
  createdAt : String
  title : String
  weeks : List ProgramMicrocycleSchema
deriving Repr, DecidableEq

/-- Read a JSON number as an integer (pydantic int field). -/
def jInt : Option JValue → Option Int
  | some (JValue.jnum q) => if q.den = 1 then some q.num else none
  | _ => none

def jStr : Option JValue → Option String
  | some (JValue.jstr s) => some s
  | _ => none

def jNum : Option JValue → Option ℚ
  | some (JValue.jnum q) => some q
  | _ => none

/-- ExerciseSchema validation: sets in 1..10, rpeTarget in 6..10,
restSeconds in 30..600, notes optional. -/
def validate_exercise (j : JValue) : Option ExerciseSchema := do
  let name ← jStr (jGet j "name")
  let sets ← jInt (jGet j "sets")
  if sets < 1 ∨ 10 < sets then none else
  let reps ← jStr (jGet j "reps")
  let rpe ← jNum (jGet j "rpeTarget")
  if rpe < 6 ∨ 10 < rpe then none else
  let rest ← jInt (jGet j "restSeconds")
  if rest < 30 ∨ 600 < rest then none else
  let notes : Option String :=
    match jGet j "notes" with
    | some (JValue.jstr s) => some s
    | _ => none
  match j with
  | JValue.jobj _ => some ⟨name, sets, reps, rpe, rest, notes⟩
  | _ => none

/-- LiftingSessionSchema validation: dayNumber in 1..7, at least one
exercise. -/
def validate_lifting_session (j : JValue) : Option LiftingSessionSchema := do
  let day ← jInt (jGet j "dayNumber")
  if day < 1 ∨ 7 < day then none else
  let focus ← jStr (jGet j "focus")
  match jGet j "exercises" with
  | some (JValue.jarr xs) => do
    let exs ← xs.mapM validate_exercise
    if exs.isEmpty then none else
    some ⟨day, focus, exs⟩
  | _ => none

/-- ProgramMicrocycleSchema validation: weekNumber at least 1, at least
one session. -/
def validate_microcycle (j : JValue) : Option ProgramMicrocycleSchema := do
  let week ← jInt (jGet j "weekNumber")
  if week < 1 then none else
  match jGet j "sessions" with
  | some (JValue.jarr xs) => do
    let ss ← xs.mapM validate_lifting_session
    if ss.isEmpty then none else
    some ⟨week, ss⟩
  | _ => none

/-- FullProgramSchema validation: at least one week. -/
def validate_full_program (j : JValue) : Option FullProgramSchema := do
  let i ← jStr (jGet j "id")
  let created ← jStr (jGet j "createdAt")
  let title ← jStr (jGet j "title")
  match jGet j "weeks" with
  | some (JValue.jarr xs) => do
    let ws ← xs.mapM validate_microcycle
    if ws.isEmpty then none else
    some ⟨i, created, title, ws⟩
  | _ => none

/-! ## Reference data (models/tables.py rows used by the agents) -/

structure TrainingMethodology where
  id : String
  name : String
  description : String
  category : String
  system_prompt_template : String
  programming_rules : List (String × String)
  knowledge_base : List (String × String)
deriving Repr, DecidableEq

structure Exercise where
  name : String
  category : String
  equipment : List String
  targets_weak_points : List String
  complexity : String
deriving Repr, DecidableEq

/-- Render of a Python optional string inside an f-string: None prints
as "None". -/
def pystr : Option String → String
  | none => "None"
  | some s => s

/-! ## Programmer Agent data loading (programmer_agent.py) -/

/-- The complexity_mapping dict literal in _get_exercises_for_profile;
indexing with any other key raises KeyError, modelled as none. -/
def complexity_mapping (trainingAge : String) : Option (List String) :=
  if trainingAge == "novice" then some ["beginner"]
  else if trainingAge == "intermediate" then some ["beginner", "intermediate"]
  else if trainingAge == "advanced" then some ["beginner", "intermediate", "advanced"]
  else none

/-- ProgrammerAgent._get_available_equipment: the three-tier equipment
table; an unknown tier falls back to the commercial list via dict.get. -/
def get_available_equipment (equipment_access : String) : List String :=
  if equipment_access == "garage" then ["barbell", "rack", "bench"]
  else if equipment_access == "hardcore" then
    ["barbell", "rack", "bench", "dumbbells", "cable", "machines",
     "bands", "chains", "specialty_bars"]
  else ["barbell", "rack", "bench", "dumbbells", "cable", "machines"]

/-- The pure filtering step of _get_exercises_for_profile: the database
query keeps exercises whose complexity is in the allowed set for the
training age, then Python keeps those whose equipment set is a subset of
the available equipment.  none models the KeyError on an unknown
training age (raised before the database read). -/
def filter_exercises (store : List Exercise) (trainingAge equipmentAccess : String) :
    Option (List Exercise) :=
  match complexity_mapping trainingAge with
  | none => none
  | some allowed =>
    let available := get_available_equipment equipmentAccess
    let all_exercises := store.filter (fun ex => allowed.contains ex.complexity)
    some (all_exercises.filter
      (fun ex => ex.equipment.all (fun e => available.contains e)))

/-- ProgrammerAgent._load_methodology: cache check (a methodology object
is always truthy), then a database read whose miss raises via
scalar_one.  Returns the result, the updated cache and the number of
database reads performed. -/
def load_methodology (methStore : List TrainingMethodology)
    (c : Cache TrainingMethodology) (methodology_id : Option String) :
    Option TrainingMethodology × Cache TrainingMethodology × Nat :=
  let key := "methodology_" ++ pystr methodology_id
  match cache_get c key with
  | some m => (some m, c, 0)
  | none =>
    let found :=
      match methodology_id with
      | none => none
      | some i => methStore.find? (fun m => m.id == i)
    match found with
    | some m => (some m, cache_set c key m, 1)
    | none => (none, c, 1)

/-- ProgrammerAgent._get_exercises_for_profile: cache check under Python
truthiness (an empty cached list is falsy and so does not count as a
hit), then the filtered database read, caching the filtered list.
Returns the result, the updated cache and the number of database reads
performed. -/
def get_exercises_for_profile (exStore : List Exercise)
    (c : Cache (List Exercise)) (equipmentAccess trainingAge : String) :
    Option (List Exercise) × Cache (List Exercise) × Nat :=
  let key := "exercises_" ++ equipmentAccess ++ "_" ++ trainingAge
  let queried :=
    match filter_exercises exStore trainingAge equipmentAccess with
    | none => (none, c, 0)
    | some filtered => (some filtered, cache_set c key filtered, 1)
  match cache_get c key with
  | some l => if l.isEmpty then queried else (some l, c, 0)
  | none => queried

/-! ## Analyst methodology knowledge (analyst_agent.py) -/

structure MethodologyKnowledge where
  methodology_name : String
  knowledge_base : List (String × String)
deriving Repr, DecidableEq

/-- AnalystMentorAgent._load_methodology_knowledge: cache check (the
cached two-entry dict is always truthy), then a database read via
scalar_one_or_none; a miss returns the empty dict (modelled none) and
caches nothing.  Returns the result, the updated cache and the number
of database reads performed. -/
def load_methodology_knowledge (methStore : List TrainingMethodology)
    (c : Cache MethodologyKnowledge) (methodology_id : String) :
    Option MethodologyKnowledge × Cache MethodologyKnowledge × Nat :=
  let key := "methodology_kb_" ++ methodology_id
  match cache_get c key with
  | some k => (some k, c, 0)
  | none =>
    match methStore.find? (fun m => m.id == methodology_id) with
    | some m =>
      let k : MethodologyKnowledge := ⟨m.name, m.knowledge_base⟩
      (some k, cache_set c key k, 1)
    | none => (none, c, 1)

/-! ## Athlete profile and program request -/

structure BiometricsSchema where
  bodyweight : ℚ
  unit : String
  sex : String
  age : Int
deriving Repr, DecidableEq

structure OneRepMaxSchema where
  squat : ℚ
  bench : ℚ
  deadlift : ℚ
deriving Repr, DecidableEq

/-- Modelled from the spec: ExtendedLifterProfileSchema is imported from
models/schemas by the agents but its definition is not in the source
tree.  The spec describes the extended AthleteProfile as biometrics,
one-rep-maxes, trainingAge, weakPoints, equipmentAccess,
preferredSessionLength and methodologyId; the agents additionally read
id, competitionDate and biometrics.unit. -/
structure ExtendedLifterProfile where
  id : String
  name : String
  biometrics : BiometricsSchema
  oneRepMax : OneRepMaxSchema
  trainingAge : String
  weakPoints : List String
  equipmentAccess : String
  preferredSessionLength : Int
  competitionDate : Option String
  methodologyId : Option String
deriving Repr, DecidableEq

/-- models/schemas.py ProgramGenerationRequest. -/
structure ProgramGenerationRequest where
  goal : String
  weeks : Int
  daysPerWeek : Int
  limitations : List String
  focusAreas : List String
deriving Repr, DecidableEq

/-- The Python value the dispatcher or a caller passes as the profile
context entry: None, the schema object itself, or the plain dict
produced by model_dump (routes/router.py passes the latter; attribute
access on it raises AttributeError). -/
inductive PyProfile where
  | pyNone
  | schemaObj (p : ExtendedLifterProfile)
  | dumpDict (p : ExtendedLifterProfile)
deriving Repr, DecidableEq

/-! ## Prompt builders (abridged text, faithful control structure) -/

def join_comma : List String → String
  | [] => ""
  | [s] => s
  | s :: rest => s ++ ", " ++ join_comma rest

def render_kv : List (String × String) → String
  | [] => ""
  | (k, v) :: rest => k ++ ": " ++ v ++ "\n" ++ render_kv rest

def render_exercises : List Exercise → String
  | [] => ""
  | ex :: rest =>
    "- " ++ ex.name ++ " (" ++ ex.category ++ ") - Targets: "
      ++ join_comma ex.targets_weak_points ++ "\n" ++ render_exercises rest

/-- RouterAgent.get_system_prompt. -/
def router_system_prompt (has_program : Bool) (methodology : Option String) : String :=
  "You are a Router Agent for IronPath AI, a powerlifting coaching system.\n"
    ++ "Classify user messages into intents to route to the correct specialized agent.\n"
    ++ "- User has existing program: " ++ (if has_program then "True" else "False") ++ "\n"
    ++ "- Current methodology: " ++ pystr methodology ++ "\n"
    ++ "Intent types: program_generation, technique_question, motivation_support, "
    ++ "program_adjustment, general_chat.\n"
    ++ "Return ONLY valid JSON, no additional text."

/-- AnalystMentorAgent.get_system_prompt: the methodology name defaults
to Unknown and the knowledge-base section is emitted only when the
knowledge base is truthy (non-empty). -/
def analyst_system_prompt (mk : Option MethodologyKnowledge) : String :=
  let methodology_name :=
    match mk with
    | some k => k.methodology_name
    | none => "Unknown"
  let base :=
    "You are an expert powerlifting coach and mentor for IronPath AI.\n"
      ++ "CRITICAL: You are READ-ONLY. You CANNOT modify training programs.\n"
      ++ "ATHLETE METHODOLOGY: " ++ methodology_name ++ "\n"
  let with_kb :=
    match mk with
    | some k =>
      if k.knowledge_base.isEmpty then base
      else base ++ "METHODOLOGY KNOWLEDGE BASE:\n" ++ render_kv k.knowledge_base
    | none => base
  with_kb ++ "Respond in a conversational, supportive tone as a knowledgeable coach."

/-- The user prompt of AnalystMentorAgent.process: athlete context is
appended only when a profile is present. -/
def analyst_user_prompt (user_message : String) (profile : PyProfile) : String :=
  let base := "User question: " ++ user_message
  match profile with
  | PyProfile.schemaObj p =>
    base ++ "\nAthlete context:\n- Training age: " ++ p.trainingAge
      ++ "\n- Weak points: "
      ++ (if p.weakPoints.isEmpty then "None specified" else join_comma p.weakPoints)
      ++ "\n- 1RMs: Squat " ++ toString p.oneRepMax.squat ++ p.biometrics.unit
      ++ ", Bench " ++ toString p.oneRepMax.bench ++ p.biometrics.unit
      ++ ", Deadlift " ++ toString p.oneRepMax.deadlift ++ p.biometrics.unit
  | _ => base

/-- ProgrammerAgent.get_system_prompt. -/
def programmer_system_prompt (methodology : TrainingMethodology)
    (p : ExtendedLifterProfile) (exercises : List Exercise) : String :=
  methodology.system_prompt_template
    ++ "\nATHLETE PROFILE\n- Training Age: " ++ p.trainingAge
    ++ "\n- Weak Points: "
    ++ (if p.weakPoints.isEmpty then "None specified" else join_comma p.weakPoints)
    ++ "\n- Equipment Access: " ++ p.equipmentAccess
    ++ "\n- Preferred Session Length: " ++ toString p.preferredSessionLength ++ " minutes"
    ++ "\n- 1RMs: Squat " ++ toString p.oneRepMax.squat ++ p.biometrics.unit
    ++ ", Bench " ++ toString p.oneRepMax.bench ++ p.biometrics.unit
    ++ ", Deadlift " ++ toString p.oneRepMax.deadlift ++ p.biometrics.unit
    ++ "\nAVAILABLE EXERCISES\n" ++ render_exercises exercises
    ++ "\nPROGRAMMING RULES\n" ++ render_kv methodology.programming_rules

/-- ProgrammerAgent._build_user_prompt. -/
def build_user_prompt (p : ExtendedLifterProfile)
    (request : ProgramGenerationRequest) : String :=
  "Generate a " ++ toString request.weeks
    ++ "-week powerlifting program with the following parameters:\n"
    ++ "Goal: " ++ request.goal
    ++ "\nTraining Days Per Week: " ++ toString request.daysPerWeek
    ++ "\nAthlete Level: " ++ p.trainingAge
    ++ (if request.limitations.isEmpty then ""
        else "\nLimitations/Injuries: " ++ join_comma request.limitations)
    ++ (if request.focusAreas.isEmpty then ""
        else "\nFocus Areas: " ++ join_comma request.focusAreas)
    ++ (if p.weakPoints.isEmpty then ""
        else "\nWeak Points to Address: " ++ join_comma p.weakPoints)
    ++ (match p.competitionDate with
        | none => ""
        | some d => if d == "" then "" else "\nCompetition Date: " ++ d)
    ++ "\nUse only exercises from the AVAILABLE EXERCISES list above. "
    ++ "Return valid JSON matching the required schema."

/-! ## Router Agent process (router_agent.py) -/

/-- Modelled from the spec: the pydantic model IntentClassification is
imported from models/schemas in the source but its definition is not in
the source tree.  The spec gives its shape as intent in the five-intent
enumeration, confidence a float in the closed interval [0, 1], reasoning
a string, suggestedAgent in the three-agent enumeration and
requiresProgramContext a boolean; a validation failure raises, modelled
as none. -/
def validate_intent_classification (j : JValue) : Option IntentClassification :=
  match jGet j "intent", jGet j "confidence", jGet j "reasoning",
        jGet j "suggestedAgent", jGet j "requiresProgramContext" with
  | some (JValue.jstr i), some (JValue.jnum q), some (JValue.jstr r),
      some (JValue.jstr sa), some (JValue.jbool b) =>
    if ["program_generation", "technique_question", "motivation_support",
          "program_adjustment", "general_chat"].contains i
        && ["programmer", "analyst_mentor", "feedback"].contains sa
        && decide (0 ≤ q) && decide (q ≤ 1)
    then some ⟨i, q, r, sa, b⟩
    else none
  | _, _, _, _, _ => none

/-- RouterAgent.process: raises on an empty message, calls the model
through the retry wrapper, parses the JSON and validates it into the
IntentClassification shape; every failure propagates. -/
def router_process (user_message : String) (has_program : Bool)
    (methodology : Option String)
    (provider : String → String → Nat → GenOutcome) (max_retries : Nat)
    (loads : String → Option JValue) : Option IntentClassification :=
  if user_message == "" then none
  else
    let sys := router_system_prompt has_program methodology
    let up := "User message: " ++ user_message
    match (call_gemini max_retries (provider sys up)).1 with
    | Except.error _ => none
    | Except.ok text =>
      match loads text with
      | none => none
      | some j => validate_intent_classification j

/-! ## Analyst/Mentor Agent process (analyst_agent.py) -/

/-- AnalystMentorAgent.process: raises on an empty message; raises
AttributeError when the profile is a plain dict (profile.id in the log
line, line 108); loads the methodology knowledge only when a profile
with a truthy methodologyId is present; issues a plain-text completion
and returns the response with agent_type analyst_mentor. -/
def analyst_process (methStore : List TrainingMethodology)
    (c : Cache MethodologyKnowledge) (user_message : String)
    (profile : PyProfile)
    (provider : String → String → Nat → GenOutcome) (max_retries : Nat) :
    Option (String × String) :=
  if user_message == "" then none
  else
    match profile with
    | PyProfile.dumpDict _ => none
    | PyProfile.pyNone =>
      let sys := analyst_system_prompt none
      let up := analyst_user_prompt user_message PyProfile.pyNone
      match (call_gemini max_retries (provider sys up)).1 with
      | Except.error _ => none
      | Except.ok text => some (text, "analyst_mentor")
    | PyProfile.schemaObj p =>
      let mk :=
        match p.methodologyId with
        | none => none
        | some mid =>
          if mid == "" then none
          else (load_methodology_knowledge methStore c mid).1
      let sys := analyst_system_prompt mk
      let up := analyst_user_prompt user_message (PyProfile.schemaObj p)
      match (call_gemini max_retries (provider sys up)).1 with
      | Except.error _ => none
      | Except.ok text => some (text, "analyst_mentor")

/-! ## Programmer Agent process (programmer_agent.py) -/

structure ProgramResult where
  program : FullProgramSchema
  methodology_used : String
deriving Repr, DecidableEq

/-- ProgrammerAgent.process: loads the methodology (hard failure on a
miss), loads the filtered exercises, builds the prompts, calls the model
through the retry wrapper, parses and validates the program; every
failure propagates.  The agent is constructed per request, so both
cached loads start from an empty cache; the source keeps both kinds of
entries in one dict under disjoint key spaces, modelled here as two
typed caches. -/
def programmer_process (methStore : List TrainingMethodology)
    (exStore : List Exercise) (p : ExtendedLifterProfile)
    (request : ProgramGenerationRequest)
    (provider : String → String → Nat → GenOutcome) (max_retries : Nat)
    (loads : String → Option JValue) : Option ProgramResult :=
  match (load_methodology methStore Cache.empty p.methodologyId).1 with
  | none => none
  | some methodology =>
    match (get_exercises_for_profile exStore Cache.empty
        p.equipmentAccess p.trainingAge).1 with
    | none => none
    | some exercises =>
      let sys := programmer_system_prompt methodology p exercises
      let up := build_user_prompt p request
      match (call_gemini max_retries (provider sys up)).1 with
      | Except.error _ => none
      | Except.ok text =>
        match loads text with
        | none => none
        | some j =>
          (validate_full_program j).map (fun prog => ⟨prog, methodology.name⟩)

/-! ## Feedback and Check-in Agents (feedback_agent.py)

These agents call the provider directly (no retry wrapper).  The outcome
of the fallible completion-and-parse boundary is a parameter: the call
raised, or returned falsy text, or returned text json.loads rejects, or
returned text that parses to a JSON value. -/

inductive CompletionOutcome where
  | transportError (msg : String)
  | emptyResponse
  | invalidJson (msg : String)
  | parsed (j : JValue)

/-- The body of the try block of FeedbackAgent.adjust_workout after the
completion call: empty text raises ValueError, a missing adjustedSession
key raises KeyError, pydantic validation of the adjusted session can
raise, and a missing reason key raises KeyError (after the session was
validated).  The reason is returned as-is, whatever JSON value it is. -/
def adjust_completion_attempt (outcome : CompletionOutcome) :
    Except String (LiftingSessionSchema × JValue) :=
  match outcome with
  | CompletionOutcome.transportError m => Except.error m
  | CompletionOutcome.emptyResponse => Except.error "Empty response from AI"
  | CompletionOutcome.invalidJson m => Except.error m
  | CompletionOutcome.parsed j =>
    match jGet j "adjustedSession" with
    | none => Except.error "KeyError: adjustedSession"
    | some js =>
      match validate_lifting_session js with
      | none => Except.error "validation error for LiftingSessionSchema"
      | some s =>
        match jGet j "reason" with
        | none => Except.error "KeyError: reason"
        | some r => Except.ok (s, r)

/-- FeedbackAgent.adjust_workout: on any exception in the try block the
original session is returned together with an error-derived reason
string. -/
def adjust_workout (original_session : LiftingSessionSchema)
    (outcome : CompletionOutcome) : LiftingSessionSchema × JValue :=
  match adjust_completion_attempt outcome with
  | Except.ok res => res
  | Except.error e =>
    (original_session,
      JValue.jstr ("Unable to adjust workout automatically: " ++ e))

/-- models/schemas.py CheckInMetrics. -/
structure CheckInMetrics where
  sessionsCompleted : Int
  sessionsPlanned : Int
  adherenceRate : ℚ
  averageRPE : Option ℚ
deriving Repr, DecidableEq

/-- CheckInAgent.analyze_progress: on success reads insights,
recommendations and programAdjustmentsNeeded from the parsed JSON with
dict.get defaults and always returns None for the adjusted program; on
any exception falls back to a generic insight built from the metrics, a
static recommendation, False and None. -/
def analyze_progress (metrics : CheckInMetrics) (outcome : CompletionOutcome) :
    JValue × JValue × JValue × Option FullProgramSchema :=
  match outcome with
  | CompletionOutcome.parsed (JValue.jobj fields) =>
    let result := JValue.jobj fields
    let insights := (jGet result "insights").getD (JValue.jarr [])
    let recommendations := (jGet result "recommendations").getD (JValue.jarr [])
    let adjustments_needed :=
      (jGet result "programAdjustmentsNeeded").getD (JValue.jbool false)
    (insights, recommendations, adjustments_needed, none)
  | _ =>
    (JValue.jarr [JValue.jstr ("Completed " ++ toString metrics.sessionsCompleted
        ++ " of " ++ toString metrics.sessionsPlanned ++ " sessions")],
     JValue.jarr [JValue.jstr "Continue with your current program"],
     JValue.jbool false,
     none)

/-! ## Dispatcher (routes/router.py, handle_agent_message)

The routing block after classification: the analyst predicate is checked
first, then programmer and feedback (both answered by redirect stubs),
and anything else falls through to the analyst.  Both analyst branches
construct a fresh agent and pass request.profile.model_dump(), a plain
dict.  none models an exception propagating out of the routing block
(converted to an HTTP 500 by the surrounding handler). -/

inductive AgentRouteResponse where
  | analystResp (response : String) (agent_type : String)
  | programmerStub
  | feedbackStub
deriving Repr, DecidableEq

def handle_agent_message (classification : IntentClassification)
    (methStore : List TrainingMethodology) (profile : ExtendedLifterProfile)
    (message : String) (provider : String → String → Nat → GenOutcome)
    (max_retries : Nat) : Option (String × AgentRouteResponse) :=
  if should_route_to_analyst classification then
    (analyst_process methStore Cache.empty message (PyProfile.dumpDict profile)
        provider max_retries).map
      (fun r => ("analyst_mentor", AgentRouteResponse.analystResp r.1 r.2))
  else if should_route_to_programmer classification then
    some ("programmer", AgentRouteResponse.programmerStub)
  else if should_route_to_feedback classification then
    some ("feedback", AgentRouteResponse.feedbackStub)
  else
    (analyst_process methStore Cache.empty message (PyProfile.dumpDict profile)
        provider max_retries).map
      (fun r => ("analyst_mentor", AgentRouteResponse.analystResp r.1 r.2))

end IronPath

namespace IronPath

/-- Claim C1: for every classification at most one of the three routing
predicates returns true, and a classification with intent
program_generation routes to the programmer and to no other agent. -/
theorem routing_predicates_exclusive (c : IntentClassification) :
    (¬(should_route_to_programmer c = true ∧ should_route_to_analyst c = true))
    ∧ (¬(should_route_to_programmer c = true ∧ should_route_to_feedback c = true))
    ∧ (¬(should_route_to_analyst c = true ∧ should_route_to_feedback c = true))
    ∧ (c.intent = "program_generation" →
        should_route_to_programmer c = true
        ∧ should_route_to_analyst c = false
        ∧ should_route_to_feedback c = false) := by
  obtain ⟨i, conf, r, sa, req⟩ := c
  simp only [should_route_to_programmer, should_route_to_analyst,
    should_route_to_feedback, List.contains, List.elem_eq_mem, List.mem_cons,
    List.mem_singleton, List.not_mem_nil, or_false, beq_iff_eq,
    decide_eq_true_eq]
  refine ⟨?_, ?_, ?_, ?_⟩
  · rintro ⟨rfl, h | h | h⟩ <;> simp_all
  · rintro ⟨rfl, h⟩; simp_all
  · rintro ⟨h | h | h, hf⟩ <;> simp_all
  · rintro rfl
    refine ⟨rfl, ?_, ?_⟩ <;> decide

/-- Witness for C1 at a concrete program_generation classification. -/
theorem routing_predicates_exclusive_witness :
    should_route_to_programmer
        ⟨"program_generation", 9/10, "wants a program", "programmer", false⟩ = true
    ∧ should_route_to_analyst
        ⟨"program_generation", 9/10, "wants a program", "programmer", false⟩ = false
    ∧ should_route_to_feedback
        ⟨"program_generation", 9/10, "wants a program", "programmer", false⟩ = false :=
  (routing_predicates_exclusive
    ⟨"program_generation", 9/10, "wants a program", "programmer", false⟩).2.2.2 rfl

/-! ### Behaviour of the retry loop (for C5) -/

/-- Characterization of the retry loop: with positive fuel it makes
between 1 and fuel attempts; if it stopped before exhausting the fuel,
the last attempt made succeeded; and if every available attempt fails,
it uses all the fuel and re-raises the error of the final attempt. -/
theorem run_attempts_spec (provider : Nat → GenOutcome) :
    ∀ fuel a, 0 < fuel →
      1 ≤ (run_attempts provider a fuel).2
      ∧ (run_attempts provider a fuel).2 ≤ fuel
      ∧ ((run_attempts provider a fuel).2 < fuel →
          is_fail (provider (a + (run_attempts provider a fuel).2 - 1)) = false)
      ∧ ((∀ j, a ≤ j → j < a + fuel → is_fail (provider j) = true) →
          (run_attempts provider a fuel).1
              = Except.error (fail_msg (provider (a + fuel - 1)))
          ∧ (run_attempts provider a fuel).2 = fuel) := by
  intro fuel
  induction fuel with
  | zero => intro a h; omega
  | succ f ih =>
    intro a _
    match hres : attempt_result (provider a) with
    | Except.ok s =>
      have hrun : run_attempts provider a (f + 1) = (Except.ok s, 1) := by
        simp [run_attempts, hres]
      have hfail : is_fail (provider a) = false := by
        simp [is_fail, hres]
      refine ⟨by simp [hrun], by simp [hrun], ?_, ?_⟩
      · intro _
        have harith : a + (run_attempts provider a (f + 1)).2 - 1 = a := by
          simp [hrun]
        rw [harith]; exact hfail
      · intro hall
        have hcontra := hall a (le_refl a) (by omega)
        rw [hfail] at hcontra
        exact absurd hcontra (by simp)
    | Except.error e =>
      by_cases hf : f = 0
      · subst hf
        have hrun : run_attempts provider a 1 = (Except.error e, 1) := by
          simp [run_attempts, hres]
        refine ⟨by simp [hrun], by simp [hrun], by simp [hrun], ?_⟩
        intro _
        have hmsg : fail_msg (provider (a + 1 - 1)) = e := by
          simp [fail_msg, hres]
        rw [hmsg]
        simp [hrun]
      · have hf' : 0 < f := Nat.pos_of_ne_zero hf
        have hrun : run_attempts provider a (f + 1)
            = ((run_attempts provider (a + 1) f).1,
               (run_attempts provider (a + 1) f).2 + 1) := by
          simp [run_attempts, hres, hf]
        obtain ⟨ih1, ih2, ih3, ih4⟩ := ih (a + 1) hf'
        refine ⟨by simp [hrun], ?_, ?_, ?_⟩
        · rw [hrun]; simp only; omega
        · intro hlt
          rw [hrun] at hlt ⊢
          simp only at hlt ⊢
          have hlt' : (run_attempts provider (a + 1) f).2 < f := by omega
          have hok := ih3 hlt'
          have harith : a + ((run_attempts provider (a + 1) f).2 + 1) - 1
              = a + 1 + (run_attempts provider (a + 1) f).2 - 1 := by
            omega
          rw [harith]
          exact hok
        · intro hall
          have hall' : ∀ j, a + 1 ≤ j → j < a + 1 + f →
              is_fail (provider j) = true := by
            intro j hj1 hj2
            exact hall j (by omega) (by omega)
          obtain ⟨hres', hcnt'⟩ := ih4 hall'
          have harith : a + 1 + f - 1 = a + (f + 1) - 1 := by omega
          rw [harith] at hres'
          constructor
          · rw [hrun]; simpa using hres'
          · rw [hrun]; simpa using hcnt'

/-- Claim C5: the model-call wrapper makes at most max_retries sequential
attempts; every failed attempt that was made and is not the final one is
followed by a further attempt; and when every attempt fails, the wrapper
makes exactly max_retries attempts and re-raises the error of the last
attempt. -/
theorem call_gemini_retry_bound (provider : Nat → GenOutcome)
    (max_retries : Nat) (h : 0 < max_retries) :
    (call_gemini max_retries provider).2 ≤ max_retries
    ∧ (∀ i, 1 ≤ i → i < max_retries →
        i ≤ (call_gemini max_retries provider).2 →
        is_fail (provider i) = true →
        i + 1 ≤ (call_gemini max_retries provider).2)
    ∧ ((∀ i, 1 ≤ i → i ≤ max_retries → is_fail (provider i) = true) →
        (call_gemini max_retries provider).1
            = Except.error (fail_msg (provider max_retries))
        ∧ (call_gemini max_retries provider).2 = max_retries) := by
  obtain ⟨h1, h2, h3, h4⟩ := run_attempts_spec provider max_retries 1 h
  refine ⟨h2, ?_, ?_⟩
  · intro i hi1 hi2 hile hfail
    by_contra hnot
    have hieq : i = (call_gemini max_retries provider).2 := by
      unfold call_gemini at hile hnot ⊢
      omega
    have hlt : (run_attempts provider 1 max_retries).2 < max_retries := by
      unfold call_gemini at hieq
      omega
    have := h3 hlt
    have harith : 1 + (run_attempts provider 1 max_retries).2 - 1
        = (run_attempts provider 1 max_retries).2 := by omega
    rw [harith] at this
    unfold call_gemini at hieq
    rw [← hieq] at this
    rw [hfail] at this
    exact absurd this (by simp)
  · intro hall
    have hall' : ∀ j, 1 ≤ j → j < 1 + max_retries → is_fail (provider j) = true := by
      intro j hj1 hj2
      exact hall j hj1 (by omega)
    obtain ⟨hres, hcnt⟩ := h4 hall'
    have harith : 1 + max_retries - 1 = max_retries := by omega
    rw [harith] at hres
    exact ⟨hres, hcnt⟩

/-- A provider that raises on every attempt. -/
def always_failing_provider : Nat → GenOutcome :=
  fun _ => GenOutcome.raised "boom"

/-- Witness for C5: with the default max_retries of 3 and a provider
that always raises, exactly 3 attempts are made and the last error is
re-raised. -/
theorem call_gemini_retry_bound_witness :
    (call_gemini 3 always_failing_provider).2 ≤ 3
    ∧ ((call_gemini 3 always_failing_provider).1 = Except.error "boom"
        ∧ (call_gemini 3 always_failing_provider).2 = 3) := by
  obtain ⟨h1, _, h3⟩ := call_gemini_retry_bound always_failing_provider 3 (by decide)
  exact ⟨h1, h3 (fun i _ _ => rfl)⟩

/-! ### Generic list and cache lemmas -/

theorem contains_mono {l₁ l₂ : List String} (hsub : ∀ x, x ∈ l₁ → x ∈ l₂)
    {a : String} (h : l₁.contains a = true) : l₂.contains a = true := by
  simp only [List.contains, List.elem_iff] at h ⊢
  exact hsub a h

theorem all_contains_mono {eq1 eq2 : List String}
    (hsub : ∀ e, e ∈ eq1 → e ∈ eq2) (l : List String)
    (h : l.all (fun e => eq1.contains e) = true) :
    l.all (fun e => eq2.contains e) = true := by
  rw [List.all_eq_true] at h ⊢
  intro e he
  exact contains_mono hsub (h e he)

theorem cache_get_set_self {α : Type} (c : Cache α) (k : String) (v : α) :
    cache_get (cache_set c k v) k = some v := by
  simp [cache_get, cache_set, List.find?]

/-! ### The exercise filter (for C2) -/

theorem mem_filter_exercises {store : List Exercise} {ta ea : String}
    {allowed : List String} {l : List Exercise} {ex : Exercise}
    (hmap : complexity_mapping ta = some allowed)
    (hl : filter_exercises store ta ea = some l) :
    ex ∈ l ↔ ex ∈ store ∧ allowed.contains ex.complexity = true
      ∧ ex.equipment.all
          (fun e => (get_available_equipment ea).contains e) = true := by
  unfold filter_exercises at hl
  rw [hmap] at hl
  simp only [Option.some.injEq] at hl
  subst hl
  simp [List.mem_filter, and_assoc]
  tauto

/-- Claim C2: over any fixed exercise store, the Programmer Agent exercise
filter is monotone in training age for every fixed equipment tier
(novice into intermediate into advanced) and monotone in equipment tier
for every fixed training age (garage into commercial into hardcore). -/
theorem exercise_filter_monotone (store : List Exercise) (tier age : String)
    (lnov lint ladv lgar lcom lhar : List Exercise)
    (h1 : filter_exercises store "novice" tier = some lnov)
    (h2 : filter_exercises store "intermediate" tier = some lint)
    (h3 : filter_exercises store "advanced" tier = some ladv)
    (h4 : filter_exercises store age "garage" = some lgar)
    (h5 : filter_exercises store age "commercial" = some lcom)
    (h6 : filter_exercises store age "hardcore" = some lhar) :
    (∀ ex, ex ∈ lnov → ex ∈ lint) ∧ (∀ ex, ex ∈ lint → ex ∈ ladv)
    ∧ (∀ ex, ex ∈ lgar → ex ∈ lcom) ∧ (∀ ex, ex ∈ lcom → ex ∈ lhar) := by
  have hnov : complexity_mapping "novice" = some ["beginner"] := rfl
  have hint : complexity_mapping "intermediate"
      = some ["beginner", "intermediate"] := rfl
  have hadv : complexity_mapping "advanced"
      = some ["beginner", "intermediate", "advanced"] := rfl
  have hage : ∃ allowed, complexity_mapping age = some allowed := by
    unfold filter_exercises at h4
    cases hmap : complexity_mapping age with
    | none => rw [hmap] at h4; exact absurd h4 (by simp)
    | some allowed => exact ⟨allowed, rfl⟩
  obtain ⟨allowed, hmap⟩ := hage
  refine ⟨?_, ?_, ?_, ?_⟩
  · intro ex hex
    rw [mem_filter_exercises hnov h1] at hex
    rw [mem_filter_exercises hint h2]
    obtain ⟨hs, hc, he⟩ := hex
    refine ⟨hs, ?_, he⟩
    exact contains_mono (by intro x hx; simp at hx; simp [hx]) hc
  · intro ex hex
    rw [mem_filter_exercises hint h2] at hex
    rw [mem_filter_exercises hadv h3]
    obtain ⟨hs, hc, he⟩ := hex
    refine ⟨hs, ?_, he⟩
    exact contains_mono (by intro x hx; simp at hx; rcases hx with hx | hx <;> simp [hx]) hc
  · intro ex hex
    rw [mem_filter_exercises hmap h4] at hex
    rw [mem_filter_exercises hmap h5]
    obtain ⟨hs, hc, he⟩ := hex
    refine ⟨hs, hc, ?_⟩
    refine all_contains_mono ?_ ex.equipment he
    intro e hee
    simp [get_available_equipment] at hee ⊢
    rcases hee with h | h | h <;> simp [h]
  · intro ex hex
    rw [mem_filter_exercises hmap h5] at hex
    rw [mem_filter_exercises hmap h6]
    obtain ⟨hs, hc, he⟩ := hex
    refine ⟨hs, hc, ?_⟩
    refine all_contains_mono ?_ ex.equipment he
    intro e hee
    simp [get_available_equipment] at hee ⊢
    rcases hee with h | h | h | h | h | h <;> simp [h]

/-- A barbell squat available everywhere. -/
def sample_exercise : Exercise :=
  ⟨"Squat", "squat", ["barbell", "rack"], ["quads"], "beginner"⟩

/-- A machine exercise only available from the commercial tier up and
only for intermediate complexity. -/
def sample_machine_exercise : Exercise :=
  ⟨"Leg Press", "legs", ["machines"], ["quads"], "intermediate"⟩

/-- Witness for C2 on a concrete two-exercise store: an exercise that
survives the novice filter also survives the intermediate filter. -/
theorem exercise_filter_monotone_witness :
    sample_exercise ∈ [sample_exercise, sample_machine_exercise] :=
  (exercise_filter_monotone [sample_exercise, sample_machine_exercise]
      "commercial" "intermediate"
      [sample_exercise] [sample_exercise, sample_machine_exercise]
      [sample_exercise, sample_machine_exercise]
      [sample_exercise] [sample_exercise, sample_machine_exercise]
      [sample_exercise, sample_machine_exercise]
      (by decide) (by decide) (by decide) (by decide) (by decide)
      (by decide)).1
    sample_exercise (by decide)

/-! ### Cached loads (for C3) -/

theorem load_methodology_second_load {methStore : List TrainingMethodology}
    {cm cm1 : Cache TrainingMethodology} {mid : Option String}
    {m : TrainingMethodology} {r1 : Nat}
    (hm : load_methodology methStore cm mid = (some m, cm1, r1)) :
    r1 ≤ 1 ∧ load_methodology methStore cm1 mid = (some m, cm1, 0) := by
  simp only [load_methodology] at hm ⊢
  cases hc : cache_get cm ("methodology_" ++ pystr mid) with
  | some m0 =>
    simp only [hc] at hm
    obtain ⟨h1, h2, h3⟩ : m0 = m ∧ cm = cm1 ∧ 0 = r1 := by simpa using hm
    subst h1; subst h2
    refine ⟨by omega, ?_⟩
    simp [hc]
  | none =>
    simp only [hc] at hm
    cases hf : (match mid with
        | none => (none : Option TrainingMethodology)
        | some i => methStore.find? (fun x => x.id == i)) with
    | some m0 =>
      simp only [hf] at hm
      obtain ⟨h1, h2, h3⟩ :
          m0 = m ∧ cache_set cm ("methodology_" ++ pystr mid) m0 = cm1 ∧ 1 = r1 := by
        simpa using hm
      subst h1
      refine ⟨by omega, ?_⟩
      rw [← h2, cache_get_set_self]
    | none =>
      simp only [hf] at hm
      simp at hm

theorem get_exercises_second_load {exStore : List Exercise}
    {ce ce1 : Cache (List Exercise)} {ea ta : String}
    {l : List Exercise} {r2 : Nat}
    (he : get_exercises_for_profile exStore ce ea ta = (some l, ce1, r2))
    (hne : l ≠ []) :
    r2 ≤ 1 ∧ get_exercises_for_profile exStore ce1 ea ta = (some l, ce1, 0) := by
  have hne' : l.isEmpty = false := by simpa [List.isEmpty_iff] using hne
  simp only [get_exercises_for_profile] at he ⊢
  cases hc : cache_get ce ("exercises_" ++ ea ++ "_" ++ ta) with
  | some l0 =>
    simp only [hc] at he
    by_cases h0 : l0.isEmpty = true
    · rw [if_pos h0] at he
      cases hf : filter_exercises exStore ta ea with
      | none => simp only [hf] at he; simp at he
      | some filtered =>
        simp only [hf] at he
        obtain ⟨h1, h2, h3⟩ :
            filtered = l
            ∧ cache_set ce ("exercises_" ++ ea ++ "_" ++ ta) filtered = ce1
            ∧ 1 = r2 := by
          simpa using he
        subst h1
        refine ⟨by omega, ?_⟩
        rw [← h2, cache_get_set_self]
        simp [hne']
    · rw [if_neg h0] at he
      obtain ⟨h1, h2, h3⟩ : l0 = l ∧ ce = ce1 ∧ 0 = r2 := by simpa using he
      subst h1; subst h2
      refine ⟨by omega, ?_⟩
      simp [hc, h0]
  | none =>
    simp only [hc] at he
    cases hf : filter_exercises exStore ta ea with
    | none => simp only [hf] at he; simp at he
    | some filtered =>
      simp only [hf] at he
      obtain ⟨h1, h2, h3⟩ :
          filtered = l
          ∧ cache_set ce ("exercises_" ++ ea ++ "_" ++ ta) filtered = ce1
          ∧ 1 = r2 := by
        simpa using he
      subst h1
      refine ⟨by omega, ?_⟩
      rw [← h2, cache_get_set_self]
      simp [hne']

/-- A seeded methodology row. -/
def sample_methodology : TrainingMethodology :=
  ⟨"westside", "Westside Conjugate", "conjugate method", "advanced",
   "You are a Westside Conjugate coach.", [("max_effort_days", "2")],
   [("quotes", "Special exercises cure special weaknesses")]⟩

/-- Claim C3, amended: one cache_set followed by cache_get returns the cached
value (and cache_get does not mutate the cache, so a second cache_get is
the same read and returns the same value); for the cached loads of the
Programmer Agent, when a load succeeds and the value it caches is truthy
(the methodology object always is; the exercise list when non-empty),
a second load with the same cache key performs no further database
read and returns the same value. -/
theorem cache_idempotent_and_single_read {α : Type} (c0 : Cache α)
    (k : String) (v : α)
    (methStore : List TrainingMethodology)
    (cm cm1 : Cache TrainingMethodology) (mid : Option String)
    (m : TrainingMethodology) (r1 : Nat)
    (exStore : List Exercise) (ce ce1 : Cache (List Exercise))
    (ea ta : String) (l : List Exercise) (r2 : Nat)
    (hm : load_methodology methStore cm mid = (some m, cm1, r1))
    (he : get_exercises_for_profile exStore ce ea ta = (some l, ce1, r2))
    (hne : l ≠ []) :
    cache_get (cache_set c0 k v) k = some v
    ∧ (r1 ≤ 1 ∧ load_methodology methStore cm1 mid = (some m, cm1, 0))
    ∧ (r2 ≤ 1 ∧ get_exercises_for_profile exStore ce1 ea ta = (some l, ce1, 0)) :=
  ⟨cache_get_set_self c0 k v, load_methodology_second_load hm,
   get_exercises_second_load he hne⟩

/-- Witness for C3 at concrete stores with one methodology and one
exercise: the first load reads the store once and the repeated load
reads it zero times. -/
theorem cache_idempotent_and_single_read_witness :
    cache_get (cache_set (Cache.empty : Cache String) "k" "v") "k" = some "v"
    ∧ ((1 : Nat) ≤ 1 ∧ load_methodology [sample_methodology]
          [("methodology_westside", sample_methodology)] (some "westside")
          = (some sample_methodology,
             [("methodology_westside", sample_methodology)], 0))
    ∧ ((1 : Nat) ≤ 1 ∧ get_exercises_for_profile [sample_exercise]
          [("exercises_garage_novice", [sample_exercise])] "garage" "novice"
          = (some [sample_exercise],
             [("exercises_garage_novice", [sample_exercise])], 0)) :=
  cache_idempotent_and_single_read Cache.empty "k" "v"
    [sample_methodology] Cache.empty
    [("methodology_westside", sample_methodology)] (some "westside")
    sample_methodology 1
    [sample_exercise] Cache.empty
    [("exercises_garage_novice", [sample_exercise])] "garage" "novice"
    [sample_exercise] 1
    (by decide) (by decide) (by decide)

def exercise_first_load : Option (List Exercise) × Cache (List Exercise) × Nat :=
  get_exercises_for_profile [] Cache.empty "garage" "novice"

def exercise_second_load : Option (List Exercise) × Cache (List Exercise) × Nat :=
  get_exercises_for_profile [] exercise_first_load.2.1 "garage" "novice"

/-- Counterexample to claim C3 as stated: over an empty exercise store both loads succeed
with the same cache key (both return the empty filtered list), yet the
database read runs in both loads, because the cached empty list is falsy
under the walrus-truthiness cache check of _get_exercises_for_profile
and so the second load misses the cache.  The total number of store
reads across the two loads is 2, refuting at-most-once as stated. -/
theorem exercise_cache_empty_list_double_read :
    exercise_first_load.1 = some [] ∧ exercise_second_load.1 = some []
    ∧ ¬ (exercise_first_load.2.2 + exercise_second_load.2.2 ≤ 1) := by
  decide

/-! ### The adjust_workout fallback (for C4) -/

/-- Claim C4: if any step of the completion path of adjust_workout raises
(transport failure, empty response, malformed JSON, failed session
validation, or a missing key in the parsed result), the call returns the
input session structurally unchanged, paired with a non-empty reason
string derived from the error. -/
theorem adjust_workout_fallback (original_session : LiftingSessionSchema)
    (outcome : CompletionOutcome) (e : String)
    (h : adjust_completion_attempt outcome = Except.error e) :
    adjust_workout original_session outcome
      = (original_session,
          JValue.jstr ("Unable to adjust workout automatically: " ++ e))
    ∧ ("Unable to adjust workout automatically: " ++ e) ≠ "" := by
  constructor
  · unfold adjust_workout
    rw [h]
  · intro hcontra
    have hlen := congrArg String.length hcontra
    rw [String.length_append] at hlen
    have h40 : ("Unable to adjust workout automatically: ").length = 40 := rfl
    have h0 : ("" : String).length = 0 := rfl
    omega

/-- The session used in concrete feedback examples. -/
def sample_session : LiftingSessionSchema :=
  ⟨1, "Squat Volume", [⟨"Squat", 5, "5", 8, 180, none⟩]⟩

/-- Witness for C4: a transport error during adjustment returns the
original session and an error-derived reason. -/
theorem adjust_workout_fallback_witness :
    adjust_workout sample_session (CompletionOutcome.transportError "network down")
      = (sample_session,
          JValue.jstr ("Unable to adjust workout automatically: " ++ "network down"))
    ∧ ("Unable to adjust workout automatically: " ++ "network down") ≠ "" :=
  adjust_workout_fallback sample_session
    (CompletionOutcome.transportError "network down") "network down" rfl

/-! ### Programmer hard failure on a missing methodology (for C6) -/

/-- Claim C6: when the methodology id of the profile has no matching record in
the store, ProgrammerAgent.process propagates the not-found failure and
produces no program result. -/
theorem programmer_missing_methodology_fails
    (methStore : List TrainingMethodology) (exStore : List Exercise)
    (p : ExtendedLifterProfile) (request : ProgramGenerationRequest)
    (provider : String → String → Nat → GenOutcome) (max_retries : Nat)
    (loads : String → Option JValue) (mid : String)
    (hmid : p.methodologyId = some mid)
    (hmiss : methStore.find? (fun m => m.id == mid) = none) :
    programmer_process methStore exStore p request provider max_retries loads
      = none := by
  simp only [programmer_process, load_methodology]
  rw [hmid]
  simp [cache_get, Cache.empty, hmiss]

def sample_profile : ExtendedLifterProfile :=
  ⟨"user_1", "Test Lifter", ⟨80, "kg", "male", 28⟩, ⟨180, 120, 220⟩,
   "intermediate", ["lockout"], "commercial", 60, none, some "westside"⟩

def sample_request : ProgramGenerationRequest :=
  ⟨"strength_block", 12, 4, [], []⟩

/-- Witness for C6: over an empty methodology store, program generation
fails even though the provider would answer. -/
theorem programmer_missing_methodology_fails_witness :
    programmer_process [] [] sample_profile sample_request
      (fun _ _ _ => GenOutcome.text "ok") 3 (fun _ => none) = none :=
  programmer_missing_methodology_fails [] [] sample_profile sample_request
    (fun _ _ _ => GenOutcome.text "ok") 3 (fun _ => none) "westside" rfl rfl

/-! ### Analyst graceful degradation (for C7) -/

theorem run_attempts_first_ok {provider : Nat → GenOutcome} {s : String}
    (h : attempt_result (provider 1) = Except.ok s) (f : Nat) :
    run_attempts provider 1 (f + 1) = (Except.ok s, 1) := by
  simp [run_attempts, h]

/-- Claim C7: when the profile given to AnalystMentorAgent.process has no
methodology id, or the methodology lookup misses, the
methodology-knowledge load returns the empty mapping instead of raising,
and process still issues its completion and returns the response with
agent_type analyst_mentor, built with the empty knowledge base (the
prompts passed to the provider are the empty-knowledge ones). -/
theorem analyst_missing_methodology_graceful
    (methStore : List TrainingMethodology) (p : ExtendedLifterProfile)
    (user_message s : String)
    (provider : String → String → Nat → GenOutcome) (max_retries : Nat)
    (hmsg : user_message ≠ "") (hs : s ≠ "") (hmr : 0 < max_retries)
    (hmiss : ∀ mid, p.methodologyId = some mid →
        methStore.find? (fun m => m.id == mid) = none)
    (hprov : provider (analyst_system_prompt none)
        (analyst_user_prompt user_message (PyProfile.schemaObj p)) 1
        = GenOutcome.text s) :
    (∀ mid, p.methodologyId = some mid →
        (load_methodology_knowledge methStore Cache.empty mid).1 = none)
    ∧ analyst_process methStore Cache.empty user_message
        (PyProfile.schemaObj p) provider max_retries
        = some (s, "analyst_mentor") := by
  have hknow : ∀ mid, p.methodologyId = some mid →
      (load_methodology_knowledge methStore Cache.empty mid).1 = none := by
    intro mid hmid
    simp [load_methodology_knowledge, cache_get, Cache.empty, hmiss mid hmid]
  refine ⟨hknow, ?_⟩
  simp only [analyst_process]
  rw [if_neg (by simpa using hmsg)]
  have hmk : (match p.methodologyId with
      | none => (none : Option MethodologyKnowledge)
      | some mid =>
        if mid == "" then none
        else (load_methodology_knowledge methStore Cache.empty mid).1) = none := by
    cases hmid : p.methodologyId with
    | none => rfl
    | some mid =>
      by_cases h0 : mid == ""
      · simp [h0]
      · simp [h0, hknow mid hmid]
  rw [hmk]
  obtain ⟨f, rfl⟩ : ∃ f, max_retries = f + 1 := ⟨max_retries - 1, by omega⟩
  have hok : attempt_result (provider (analyst_system_prompt none)
      (analyst_user_prompt user_message (PyProfile.schemaObj p)) 1)
      = Except.ok s := by
    rw [hprov]
    simp [attempt_result, String.isEmpty_iff, hs]
  rw [call_gemini, run_attempts_first_ok hok]

/-- Witness for C7: with an empty methodology store, a profile whose
methodology id misses, and a succeeding provider, the analyst still
answers with agent_type analyst_mentor. -/
theorem analyst_missing_methodology_graceful_witness :
    analyst_process [] Cache.empty "How do I improve my bench lockout?"
      (PyProfile.schemaObj sample_profile)
      (fun _ _ _ => GenOutcome.text "Work on board presses.") 3
      = some ("Work on board presses.", "analyst_mentor") :=
  (analyst_missing_methodology_graceful [] sample_profile
    "How do I improve my bench lockout?" "Work on board presses."
    (fun _ _ _ => GenOutcome.text "Work on board presses.") 3
    (by decide) (by decide) (by decide)
    (fun mid _ => rfl) rfl).2

/-! ### Router confidence bounds (for C8) -/

theorem validate_intent_confidence_bounds {j : JValue}
    {c : IntentClassification}
    (h : validate_intent_classification j = some c) :
    0 ≤ c.confidence ∧ c.confidence ≤ 1 := by
  unfold validate_intent_classification at h
  split at h
  · split at h
    · rename_i hcond
      simp only [Bool.and_eq_true, decide_eq_true_eq] at hcond
      obtain ⟨⟨⟨_, _⟩, hq0⟩, hq1⟩ := hcond
      obtain rfl : _ = c := Option.some.inj h
      exact ⟨hq0, hq1⟩
    · exact absurd h (by simp)
  · exact absurd h (by simp)

/-- Claim C8: every classification that RouterAgent.process returns has a
confidence in the closed interval from 0 to 1, because the JSON from the
model is validated into the IntentClassification shape before being
returned. -/
theorem router_confidence_in_unit_interval (user_message : String)
    (has_program : Bool) (methodology : Option String)
    (provider : String → String → Nat → GenOutcome) (max_retries : Nat)
    (loads : String → Option JValue) (c : IntentClassification)
    (h : router_process user_message has_program methodology provider
        max_retries loads = some c) :
    0 ≤ c.confidence ∧ c.confidence ≤ 1 := by
  simp only [router_process] at h
  split at h
  · exact absurd h (by simp)
  · split at h
    · exact absurd h (by simp)
    · split at h
      · exact absurd h (by simp)
      · exact validate_intent_confidence_bounds h

/-- A parsed classification JSON object with confidence one half. -/
def sample_classification_json : JValue :=
  JValue.jobj
    [("intent", JValue.jstr "general_chat"),
     ("confidence", JValue.jnum 1),
     ("reasoning", JValue.jstr "greeting"),
     ("suggestedAgent", JValue.jstr "analyst_mentor"),
     ("requiresProgramContext", JValue.jbool false)]

/-- Witness for C8 at a concrete successful classification. -/
theorem router_confidence_in_unit_interval_witness :
    0 ≤ (⟨"general_chat", 1, "greeting", "analyst_mentor", false⟩
          : IntentClassification).confidence
    ∧ (⟨"general_chat", 1, "greeting", "analyst_mentor", false⟩
          : IntentClassification).confidence ≤ 1 :=
  router_confidence_in_unit_interval "hi" false none
    (fun _ _ _ => GenOutcome.text "resp") 3
    (fun _ => some sample_classification_json)
    ⟨"general_chat", 1, "greeting", "analyst_mentor", false⟩
    (by decide)

/-! ### The dispatcher fall-through (for C9) -/

/-- A classification whose intent lies outside the five-intent
enumeration: none of the three routing predicates holds. -/
def sample_unknown_classification : IntentClassification :=
  ⟨"unknown_intent", 1, "unclear", "analyst_mentor", false⟩

/-- Claim C9, a code bug: on a classification satisfying none of the three
routing predicates the dispatcher falls through to the analyst branch,
but the route passes request.profile.model_dump(), a plain dict, and
AnalystMentorAgent.process performs attribute access profile.id on it
(analyst_agent.py line 108), raising AttributeError; the routing block
therefore propagates an exception (an HTTP 500) instead of returning an
analyst_mentor response. -/
theorem route_fallthrough_analyst_crashes :
    (should_route_to_analyst sample_unknown_classification = false
      ∧ should_route_to_programmer sample_unknown_classification = false
      ∧ should_route_to_feedback sample_unknown_classification = false)
    ∧ handle_agent_message sample_unknown_classification [] sample_profile
        "hello" (fun _ _ _ => GenOutcome.text "advice") 3 = none := by
  decide

/-! ### The check-in agent never adjusts the program (for C10) -/

/-- Claim C10: analyze_progress returns None as the adjusted program on every
path: on a successful completion (whatever the parsed flags say) and on
the failure fallback alike. -/
theorem analyze_progress_never_adjusts_program (metrics : CheckInMetrics)
    (outcome : CompletionOutcome) :
    (analyze_progress metrics outcome).2.2.2 = none := by
  unfold analyze_progress
  split
  · rfl
  · rfl

end IronPath
